import Mathlib

/-!
Verification of the CloneGallery authentication / authorization and storage core.

The definitions below are a shallow embedding of the Python sources of the
Clone-Gallery repository: the near-duplicate FastAPI server entrypoints
(`main.py`, `main_enhanced.py`, `main_simple.py`, `main_auth_only.py`) and the
storage abstraction (`storage_service.py`).  Database rows are modelled as Lean
structures, tables as lists of rows, SQL queries as list operations, machine
timestamps as natural numbers, and fallible Python code as `Except` values.
External collaborators (the passlib hashing library, PIL resizing, the UUID
generator, the JWT byte codec) enter as explicit function parameters or as
small models whose doc comments state what they stand for.
-/

namespace CloneGallery

/-- HTTP-level rejection raised by an endpoint via FastAPI's HTTPException,
identified by its status code and `detail` string. -/
inductive HttpError where
  | badRequest (detail : String)
  | unauthorized (detail : String)
  | forbidden (detail : String)
  | notFound (detail : String)
  | internalError (detail : String)
deriving DecidableEq, Repr

/-- The numeric status code of an `HttpError`. -/
def HttpError.status : HttpError → Nat
  | .badRequest _ => 400
  | .unauthorized _ => 401
  | .forbidden _ => 403
  | .notFound _ => 404
  | .internalError _ => 500

/-- Whether an `HttpError` is a 4xx-class (client error) rejection. -/
def HttpError.is4xx (e : HttpError) : Bool :=
  decide (400 ≤ e.status) && decide (e.status < 500)

/-- The `UserRole` enum shared by every server variant: Admin / Editor / Visitor. -/
inductive UserRole where
  | ADMIN
  | EDITOR
  | VISITOR
deriving DecidableEq, Repr

/-- The string value of a `UserRole` member, as stored in the `role` column. -/
def UserRole.value : UserRole → String
  | .ADMIN => "Admin"
  | .EDITOR => "Editor"
  | .VISITOR => "Visitor"

/-- The `PrivacyLevel` enum of `main_enhanced.py`: public / private. -/
inductive PrivacyLevel where
  | PUBLIC
  | PRIVATE
deriving DecidableEq, Repr

/-- The string value of a `PrivacyLevel` member, as stored in the `privacy` column. -/
def PrivacyLevel.value : PrivacyLevel → String
  | .PUBLIC => "public"
  | .PRIVATE => "private"

/-- A row of the `users` table.  The `role` and `privacy` columns are typed by the
enums above because every write path stores an enum's `.value` and every read
path re-parses the column through the enum (`UserResponse.role : UserRole`).
Timestamps are modelled as natural numbers (seconds). -/
structure UserRow where
  id : String
  email : String
  username : String
  password_hash : String
  name : String
  role : UserRole
  avatar : Option String
  email_verified : Bool
  is_active : Bool
  last_login : Option Nat
  joined_at : Nat
  uploads : Nat
  views : Nat
deriving DecidableEq, Repr

/-- A row of the `images` table (the columns the verified operations touch). -/
structure ImageRow where
  id : String
  title : String
  caption : String
  alt_text : String
  url : String
  thumbnail : String
  uploader_id : String
  uploaded_at : Nat
  privacy : PrivacyLevel
  views : Nat
  is_ai_generated : Bool
deriving DecidableEq, Repr

/-- A primitive JSON value appearing in a response body field. -/
inductive JsonValue where
  | str (s : String)
  | nat (n : Nat)
  | int (i : Int)
  | bool (b : Bool)
  | null
deriving Repr

/-- The SQL UNIQUE constraints of the `users` table: `main.py` (lines 36-49)
declares `username TEXT UNIQUE NOT NULL` and `email TEXT UNIQUE NOT NULL`; for
the variants that initialise from `database/schema.sql` (a file that is not
among the sources here) the same two constraints are modelled from the spec:
"`email` and `username` are globally unique".  An INSERT that violates either
constraint fails with an integrity error and leaves the table unchanged. -/
inductive DbError where
  | integrityError
deriving DecidableEq, Repr

/-- Insert a user row subject to the UNIQUE(email) and UNIQUE(username)
constraints described at `DbError`. -/
def insertUser (store : List UserRow) (u : UserRow) : Except DbError (List UserRow) :=
  if store.any (fun v => v.email == u.email || v.username == u.username) then
    .error .integrityError
  else
    .ok (store ++ [u])

end CloneGallery

namespace CloneGallery.Passlib

/-- Error raised by passlib's `CryptContext` (an external collaborator): with
`schemes=["bcrypt"]`, a digest that carries no recognised bcrypt scheme marker
makes `verify` raise `UnknownHashError` instead of returning a boolean. -/
inductive PasslibError where
  | unknownHash
deriving DecidableEq, Repr

/-- Whether `CryptContext` identifies the digest as belonging to the configured
bcrypt scheme (modelled by its `$2b$` scheme marker at the start of the
digest's character sequence). -/
def identifyDigest (digest : String) : Bool :=
  digest.data.take 4 == "$2b$".data

/-- Model of `CryptContext(schemes=["bcrypt"]).hash`: the produced digest
carries the bcrypt scheme marker; the one-way function itself is external, so
the digest body is modelled as an opaque tagging of the plaintext. -/
def cryptContextHash (plain : String) : String :=
  "$2b$12$" ++ plain

/-- Model of `CryptContext(schemes=["bcrypt"]).verify`: the digest is first
identified by its scheme marker; an unidentified (malformed) digest raises
`UnknownHashError`; otherwise the external bcrypt comparison `bcryptCheck`
(a parameter, since its internals live outside this repository) decides the
boolean result. -/
def cryptContextVerify (bcryptCheck : String → String → Bool)
    (plain digest : String) : Except PasslibError Bool :=
  if identifyDigest digest then .ok (bcryptCheck plain digest) else .error .unknownHash

end CloneGallery.Passlib

namespace CloneGallery.MainEnhanced

open CloneGallery

/-- The permission check inside `get_image` (`main_enhanced.py` lines 855-858):
access is denied exactly when the requester is not an Admin, the image is
private, and the requester is not the uploader. -/
def get_image_denies (current_user : UserRow) (img : ImageRow) : Bool :=
  (current_user.role.value != "Admin")
    && (img.privacy.value == "private")
    && (img.uploader_id != current_user.id)

/-- The read decision applied by `get_image`: the request proceeds iff the
deny condition does not fire. -/
def get_image_read_allowed (current_user : UserRow) (img : ImageRow) : Bool :=
  !(get_image_denies current_user img)

/-- The `UserCreate` request model of `main_enhanced.py` (lines 93-98): every
field is required. -/
structure UserCreate where
  email : String
  username : String
  password : String
  name : String
  role : UserRole
deriving DecidableEq, Repr

/-- `DatabaseManager.create_user` (`main_enhanced.py` lines 230-249): the row
the INSERT writes; columns not named in the INSERT take their schema
defaults. -/
def create_user_row (req : UserCreate) (fresh_id : String) (now : Nat) : UserRow :=
  { id := fresh_id, email := req.email, username := req.username,
    password_hash := Passlib.cryptContextHash req.password, name := req.name,
    role := req.role, avatar := none, email_verified := false, is_active := true,
    last_login := none, joined_at := now, uploads := 0, views := 0 }

/-- `register_user` (`main_enhanced.py` lines 545-562): the only duplicate
pre-check is `SELECT id FROM users WHERE email = ?` — a duplicate email is a
400 "User already exists"; otherwise the row is INSERTed, and a database
integrity failure (for example the UNIQUE(username) constraint) is caught by
`DatabaseManager.execute_query` (lines 225-228) and surfaced as a 500
"Database operation failed".  The endpoint's outcome is returned together with
the resulting users table. -/
def register_user (store : List UserRow) (req : UserCreate) (fresh_id : String)
    (now : Nat) : Except HttpError UserRow × List UserRow :=
  if store.any (fun u => u.email == req.email) then
    (.error (.badRequest "User already exists"), store)
  else
    match insertUser store (create_user_row req fresh_id now) with
    | .error _ => (.error (.internalError "Database operation failed"), store)
    | .ok store' => (.ok (create_user_row req fresh_id now), store')

/-- The `UserResponse` pydantic model (`main_enhanced.py` lines 104-117): the
exact set of fields a user-shaped response body may carry. -/
structure UserResponse where
  id : String
  email : String
  username : String
  name : String
  role : UserRole
  avatar : Option String
  email_verified : Bool
  is_active : Bool
  last_login : Option Nat
  joined_at : Nat
  uploads : Nat
  views : Nat
deriving DecidableEq, Repr

/-- Construction `UserResponse(**user)` from a row (or row-shaped dict): pydantic
keeps only the declared fields and silently ignores extra keyword arguments
(its default extra-field policy), so a `password_hash` key present in the dict
is dropped. -/
def UserResponse.ofRow (u : UserRow) : UserResponse :=
  { id := u.id, email := u.email, username := u.username, name := u.name
    role := u.role, avatar := u.avatar, email_verified := u.email_verified
    is_active := u.is_active, last_login := u.last_login, joined_at := u.joined_at
    uploads := u.uploads, views := u.views }

/-- Serialisation of a `UserResponse` body: one (key, value) pair per declared
pydantic field. -/
def UserResponse.toFields (r : UserResponse) : List (String × JsonValue) :=
  [ ("id", .str r.id), ("email", .str r.email), ("username", .str r.username),
    ("name", .str r.name), ("role", .str r.role.value),
    ("avatar", match r.avatar with | some a => .str a | none => .null),
    ("email_verified", .bool r.email_verified), ("is_active", .bool r.is_active),
    ("last_login", match r.last_login with | some t => .nat t | none => .null),
    ("joined_at", .nat r.joined_at), ("uploads", .nat r.uploads),
    ("views", .nat r.views) ]

/-- The body returned by `POST /auth/login` (`main_enhanced.py` lines 564-578):
a dict with the token, the token type and the nested `UserResponse`.  The
nested object's keys are flattened with a `user.` path so that every key of
the whole body appears in one list. -/
def loginResponseFields (token : String) (u : UserRow) : List (String × JsonValue) :=
  [ ("access_token", .str token), ("token_type", .str "bearer") ]
    ++ ((UserResponse.ofRow u).toFields.map (fun kv => ("user." ++ kv.1, kv.2)))

/-- Serialisation of an `ImageResponse` body (`main_enhanced.py` lines 142-158):
one (key, value) pair per declared pydantic field. -/
def imageResponseFields (img : ImageRow) (tags : List String) : List (String × JsonValue) :=
  [ ("id", .str img.id), ("title", .str img.title), ("caption", .str img.caption),
    ("alt_text", .str img.alt_text), ("url", .str img.url),
    ("thumbnail", .str img.thumbnail), ("uploader_id", .str img.uploader_id),
    ("uploaded_at", .nat img.uploaded_at), ("privacy", .str img.privacy.value),
    ("views", .nat img.views), ("is_ai_generated", .bool img.is_ai_generated),
    ("tags", .str (String.intercalate "," tags)) ]

/-- `JWT_EXPIRATION_HOURS = 24`, identical in every server variant. -/
def JWT_EXPIRATION_HOURS : Nat := 24

/-- The JWT payload built by `create_access_token` in `main_enhanced.py`
(lines 326-333) and `main_simple.py`: user id, role string and expiry. -/
structure TokenPayload where
  user_id : String
  role : String
  exp : Nat
deriving DecidableEq, Repr

/-- `create_access_token` (`main_enhanced.py` lines 326-333): the payload's
`exp` is the current clock timestamp plus `JWT_EXPIRATION_HOURS * 3600`
seconds; `jwt.encode` (the external byte codec) is applied afterwards and does
not change the payload. -/
def create_access_token (user_id role : String) (now : Nat) : TokenPayload :=
  { user_id := user_id, role := role, exp := now + JWT_EXPIRATION_HOURS * 3600 }

/-- An inbound HTTP request, reduced to the bearer credential it may carry. -/
structure Request where
  bearer : Option String
deriving DecidableEq, Repr

/-- The provider bound to the `token` parameter of `get_current_user` in
`main_enhanced.py` line 521 (and `main_simple.py` line 163):
`Depends(lambda: None)` ignores the request entirely and always yields None. -/
def tokenProvider (_ : Request) : Option String :=
  none

/-- `get_current_user` (`main_enhanced.py` lines 521-531): takes the token from
`tokenProvider`, returns None for a missing token, otherwise verifies it
(`verify` stands for `verify_token`, whose byte-level codec is external) and
looks the subject up through `DatabaseManager.get_user_by_id`, whose SELECT
(lines 275-288) filters on `id` only. -/
def get_current_user (verify : String → Option TokenPayload)
    (store : List UserRow) (req : Request) : Option UserRow :=
  match tokenProvider req with
  | none => none
  | some token =>
    match verify token with
    | none => none
    | some payload => store.find? (fun u => u.id == payload.user_id)

/-- The `/auth/me` endpoint (`main_enhanced.py` lines 580-586): 401 when
`get_current_user` yielded no user, otherwise the `UserResponse`. -/
def auth_me (verify : String → Option TokenPayload)
    (store : List UserRow) (req : Request) : Except HttpError UserResponse :=
  match get_current_user verify store req with
  | none => .error (.unauthorized "Not authenticated")
  | some u => .ok (UserResponse.ofRow u)

/-- The ordering `ORDER BY i.uploaded_at DESC` sorts by: later upload first. -/
def uploadedDesc (a b : ImageRow) : Prop :=
  b.uploaded_at ≤ a.uploaded_at

instance : DecidableRel uploadedDesc :=
  fun a b => Nat.decLe b.uploaded_at a.uploaded_at

instance : IsTotal ImageRow uploadedDesc :=
  ⟨fun a b => Nat.le_total b.uploaded_at a.uploaded_at⟩

instance : IsTrans ImageRow uploadedDesc :=
  ⟨fun _ _ _ h1 h2 => Nat.le_trans h2 h1⟩

/-- The WHERE clause built by `get_images` (`main_enhanced.py` lines 752-771):
optional uploader filter, optional privacy filter, and for non-Admin
requesters the restriction to public images or the requester's own. -/
def visibleTo (current_user : UserRow) (user_id : Option String)
    (privacy : Option PrivacyLevel) (img : ImageRow) : Bool :=
  (match user_id with
    | some uid => img.uploader_id == uid
    | none => true) &&
  (match privacy with
    | some p => img.privacy.value == p.value
    | none => true) &&
  (if current_user.role.value != "Admin" then
    img.privacy.value == "public" || img.uploader_id == current_user.id
  else true)

/-- The body of the `SearchResponse` model (`main_enhanced.py` lines 166-171). -/
structure SearchResult where
  images : List ImageRow
  total : Nat
  page : Nat
  limit : Nat
  total_pages : Nat
deriving Repr

/-- `get_images` (`main_enhanced.py` lines 737-826): COUNT over the WHERE
clause gives `total`; the page body is the WHERE-filtered rows ordered by
`uploaded_at DESC` (insertion sort models ORDER BY) and cut with
`LIMIT limit OFFSET (page-1)*limit`.  FastAPI's query validation admits only
`page ≥ 1` and `1 ≤ limit ≤ 100`. -/
def get_images (store : List ImageRow) (current_user : UserRow)
    (page limit : Nat) (user_id : Option String)
    (privacy : Option PrivacyLevel) : SearchResult :=
  let filtered := store.filter (visibleTo current_user user_id privacy)
  let total := filtered.length
  let sorted := List.insertionSort uploadedDesc filtered
  let offset := (page - 1) * limit
  { images := (sorted.drop offset).take limit, total := total, page := page,
    limit := limit, total_pages := (total + limit - 1) / limit }

end CloneGallery.MainEnhanced

namespace CloneGallery.AuthOnly

open CloneGallery

/-- The exception classes of the Python runtime errors relevant here:
`ValueError` from the `timezone()` constructor's range check, and `TypeError`
from an unsupported `datetime + x` operand. -/
inductive PyError where
  | valueError
  | typeError
deriving DecidableEq, Repr

/-- `JWT_EXPIRATION_HOURS = 24` (`main_auth_only.py` line 27). -/
def JWT_EXPIRATION_HOURS : Nat := 24

/-- A constructed `datetime.timezone` object (a tzinfo wrapping a fixed UTC
offset). -/
structure PyTimezone where
  offsetSeconds : Int
deriving DecidableEq, Repr

/-- The right operand of the `+` in `create_access_token` of
`main_auth_only.py`: either a `timedelta` or a `timezone` object. -/
inductive PyAddOperand where
  | timedelta (seconds : Int)
  | timezoneOf (tz : PyTimezone)
deriving DecidableEq, Repr

/-- Python semantics of `datetime + x`: defined for a `timedelta` operand;
adding a `timezone` (a tzinfo, not a timedelta) raises `TypeError`. -/
def datetimeAdd (t : Int) : PyAddOperand → Except PyError Int
  | .timedelta s => .ok (t + s)
  | .timezoneOf _ => .error .typeError

/-- `timedelta(hours=h)`, in seconds. -/
def timedeltaHours (h : Nat) : Int :=
  (h : Int) * 3600

/-- Python semantics of the `timezone(offset)` constructor: the offset must be
a timedelta strictly between -timedelta(hours=24) and timedelta(hours=24),
otherwise the constructor itself raises `ValueError` — so
`timezone(timedelta(hours=24))` never constructs. -/
def timezoneCtor (offsetSeconds : Int) : Except PyError PyTimezone :=
  if -86400 < offsetSeconds ∧ offsetSeconds < 86400 then
    .ok { offsetSeconds := offsetSeconds }
  else
    .error .valueError

/-- The claims dict `create_access_token` of `main_auth_only.py` builds. -/
structure TokenClaims where
  sub : String
  email : String
  username : String
  role : String
  exp : Int
deriving DecidableEq, Repr

/-- The user dict handed to `create_access_token` of `main_auth_only.py`. -/
structure UserData where
  id : String
  email : String
  username : String
  role : String
deriving DecidableEq, Repr

/-- `create_access_token` (`main_auth_only.py` lines 157-169): builds the
claims from the user dict and computes
`expire = datetime.utcnow() + timezone(timedelta(hours=JWT_EXPIRATION_HOURS))`
(line 166) — evaluation first constructs the `timezone` from the 24-hour
timedelta, and only a successfully constructed tzinfo would then be added to
the datetime. -/
def create_access_token (user_data : UserData) (now : Int) : Except PyError TokenClaims :=
  match timezoneCtor (timedeltaHours JWT_EXPIRATION_HOURS) with
  | .error e => .error e
  | .ok tz =>
    match datetimeAdd now (.timezoneOf tz) with
    | .error e => .error e
    | .ok expire =>
      .ok { sub := user_data.id, email := user_data.email,
            username := user_data.username, role := user_data.role, exp := expire }

end CloneGallery.AuthOnly

namespace CloneGallery.MainPy

open CloneGallery

/-- `verify_password` (`main.py` lines 143-145): a direct pass-through to
`pwd_context.verify` with no exception handling of its own, so whatever
passlib raises reaches the caller. -/
def verify_password (bcryptCheck : String → String → Bool)
    (plain_password hashed_password : String) : Except Passlib.PasslibError Bool :=
  Passlib.cryptContextVerify bcryptCheck plain_password hashed_password

/-- The outcome of `jwt.decode` on the presented bearer token inside
`get_current_user` of `main.py`: either a decoded payload, carrying what
`payload.get("sub")` yields, or a decoding failure (expired, malformed or
badly signed token). -/
inductive TokenDecode where
  | valid (sub : Option String)
  | invalid
deriving DecidableEq, Repr

/-- `get_current_user` (`main.py` lines 156-179): any decode failure or a
payload without `sub` is a 401; otherwise the subject is looked up with
`SELECT * FROM users WHERE id = ?` — a query that filters on `id` only, with
no condition on `is_active` — and only a missing row is a 401. -/
def get_current_user (store : List UserRow) (t : TokenDecode) :
    Except HttpError UserRow :=
  match t with
  | .invalid => .error (.unauthorized "Invalid authentication credentials")
  | .valid none => .error (.unauthorized "Invalid authentication credentials")
  | .valid (some user_id) =>
    match store.find? (fun u => u.id == user_id) with
    | none => .error (.unauthorized "User not found")
    | some u => .ok u

/-- The fields of a `mock_images` entry that the list endpoint's pagination
and ordering behaviour depends on. -/
structure MockImage where
  id : String
  uploader_id : String
  uploaded_at : Nat
deriving DecidableEq, Repr

/-- The hard-coded `mock_images` list of `main.py` (lines 322-374); the ISO
timestamps 2024-09-01T10:30:00Z, 2024-09-02T14:45:00Z and
2024-09-03T09:15:00Z are encoded order-faithfully as naturals. -/
def mock_images : List MockImage :=
  [ ⟨"img-001", "user-001", 20240901⟩,
    ⟨"img-002", "user-002", 20240902⟩,
    ⟨"img-003", "user-001", 20240903⟩ ]

/-- `get_images` (`main.py` lines 377-406): filters `mock_images` by the
optional uploader, slices `[start_idx:end_idx]` for pagination, and returns
the slice together with the filtered length as `total` — with no ordering
step of any kind. -/
def get_images (page limit : Nat) (user_id : Option String) :
    List MockImage × Nat :=
  let filtered : List MockImage := match user_id with
    | some uid => mock_images.filter (fun img => img.uploader_id == uid)
    | none => mock_images
  (((filtered.drop ((page - 1) * limit)).take limit), filtered.length)

/-- Upload time descending, on mock images. -/
def mockDesc (a b : MockImage) : Prop :=
  b.uploaded_at ≤ a.uploaded_at

instance : DecidableRel mockDesc :=
  fun a b => Nat.decLe b.uploaded_at a.uploaded_at

/-- The `UserCreate` request model of `main.py` (lines 95-100): `name` and
`email` are declared with default `None`, so both may be omitted. -/
structure UserCreateOpt where
  username : String
  password : String
  name : Option String
  email : Option String
  role : UserRole
deriving DecidableEq, Repr

/-- Python truthiness of an optional string field: `None` and the empty string
are falsy. -/
def truthy : Option String → Bool
  | none => false
  | some s => !(s == "")

/-- Python `x or default` over an optional string field. -/
def pyOr (x : Option String) (default : String) : String :=
  match x with
  | none => default
  | some s => if s == "" then default else s

/-- The row INSERTed by `register_user` of `main.py` (lines 204-212):
`name = user.name or user.username` and
`email = user.email or f"{username}@example.com"` (lines 189-190). -/
def insert_row (req : UserCreateOpt) (fresh_id : String) (now : Nat) : UserRow :=
  { id := fresh_id, email := pyOr req.email (req.username ++ "@example.com"),
    username := req.username,
    password_hash := Passlib.cryptContextHash req.password,
    name := pyOr req.name req.username, role := req.role, avatar := none,
    email_verified := false, is_active := true, last_login := none,
    joined_at := now, uploads := 0, views := 0 }

/-- `register_user` (`main.py` lines 182-239): the duplicate-email pre-check
(lines 192-196) runs only when the email field was provided (`if user.email:`),
the duplicate-username pre-check (lines 198-201) always runs, and the INSERT
goes into the `users` table of `init_db` (lines 36-49) whose UNIQUE
constraints make a colliding INSERT raise an uncaught IntegrityError — a 500.
The endpoint's outcome is returned together with the resulting table. -/
def register_user (store : List UserRow) (req : UserCreateOpt)
    (fresh_id : String) (now : Nat) : Except HttpError UserRow × List UserRow :=
  let email := pyOr req.email (req.username ++ "@example.com")
  if truthy req.email && store.any (fun u => u.email == email) then
    (.error (.badRequest "Email already registered"), store)
  else if store.any (fun u => u.username == req.username) then
    (.error (.badRequest "Username already taken"), store)
  else
    match insertUser store (insert_row req fresh_id now) with
    | .error _ => (.error (.internalError "IntegrityError"), store)
    | .ok store' => (.ok (insert_row req fresh_id now), store')

end CloneGallery.MainPy

namespace CloneGallery

/-- A registered user row used as a concrete store inhabitant. -/
def existingUser : UserRow :=
  { id := "user-1", email := "alice@example.com", username := "bob",
    password_hash := Passlib.cryptContextHash "password123", name := "Alice",
    role := UserRole.EDITOR, avatar := none, email_verified := true,
    is_active := true, last_login := none, joined_at := 10, uploads := 0,
    views := 0 }

/-- A registration request whose email is fresh but whose username collides
with `existingUser`. -/
def dupUsernameReq : MainEnhanced.UserCreate :=
  { email := "fresh@example.com", username := "bob", password := "password456",
    name := "New Bob", role := UserRole.VISITOR }

/-- An Admin user row. -/
def adminUser : UserRow :=
  { id := "admin-1", email := "admin@example.com", username := "admin",
    password_hash := Passlib.cryptContextHash "admin123", name := "Gallery Admin",
    role := UserRole.ADMIN, avatar := none, email_verified := true,
    is_active := true, last_login := none, joined_at := 1, uploads := 0,
    views := 0 }

/-- Twenty-five public images with pairwise distinct upload times, exercising
the spec's pagination-determinism example. -/
def demoStore : List ImageRow :=
  (List.range 25).map (fun i =>
    { id := "img-" ++ toString i, title := "demo", caption := "", alt_text := "",
      url := "/uploads/demo", thumbnail := "/uploads/thumbnails/demo",
      uploader_id := "user-001", uploaded_at := 1000 + i,
      privacy := PrivacyLevel.PUBLIC, views := 0, is_ai_generated := false })

/-- A registration request for `main.py` that omits both the name and the
email field. -/
def missingFieldsReq : MainPy.UserCreateOpt :=
  { username := "carol", password := "password123", name := none, email := none,
    role := UserRole.VISITOR }

/-- A deactivated (`is_active = false`) user row. -/
def deactivatedUser : UserRow :=
  { id := "user-9", email := "dormant@example.com", username := "dormant",
    password_hash := Passlib.cryptContextHash "password789", name := "Dormant",
    role := UserRole.VISITOR, avatar := none, email_verified := true,
    is_active := false, last_login := none, joined_at := 20, uploads := 0,
    views := 0 }

end CloneGallery

namespace CloneGallery.StorageService

/-- A key-addressed blob store (local `uploads/` tree or an S3 bucket); the
most recent write under a key wins. -/
structure ObjectStore where
  objects : List (String × List Nat)
deriving DecidableEq, Repr

/-- Write the object stored under `key`. -/
def putObject (s : ObjectStore) (key : String) (data : List Nat) : ObjectStore :=
  ⟨(key, data) :: s.objects⟩

/-- Read the object stored under `key`. -/
def getObject (s : ObjectStore) (key : String) : Option (List Nat) :=
  (s.objects.find? (fun kv => kv.1 == key)).map (fun kv => kv.2)

/-- `_create_thumbnail` (`storage_service.py` lines 76-92): the PIL
open / bounded-resize / JPEG re-encode pipeline is an external collaborator
passed in as `resize`; when it raises, the except branch returns the original
`image_data` unchanged as the fallback. -/
def create_thumbnail (resize : List Nat → Except String (List Nat))
    (image_data : List Nat) : List Nat :=
  match resize image_data with
  | .ok thumb => thumb
  | .error _ => image_data

/-- `_upload_local` (`storage_service.py` lines 119-140): writes the original
under `file_key`, derives the thumbnail through `create_thumbnail` and writes
it under `thumbnail_key`, then returns the two `/uploads/`-prefixed URLs. -/
def upload_local (resize : List Nat → Except String (List Nat)) (s : ObjectStore)
    (file_data : List Nat) (file_key thumbnail_key : String) :
    ObjectStore × String × String :=
  let s1 := putObject s file_key file_data
  let thumbnail_data := create_thumbnail resize file_data
  let s2 := putObject s1 thumbnail_key thumbnail_data
  (s2, "/uploads/" ++ file_key, "/uploads/" ++ thumbnail_key)

end CloneGallery.StorageService

namespace CloneGallery

open CloneGallery.MainEnhanced

/-- Comparing a role's stored string against the literal `"Admin"` is the same
as comparing the enum member itself. -/
theorem role_value_bne_admin (r : UserRole) :
    (r.value != "Admin") = !(r == UserRole.ADMIN) := by
  cases r <;> decide

/-- Comparing a privacy level's stored string against the literal `"private"`
is the same as comparing the enum member itself. -/
theorem privacy_value_beq_private (p : PrivacyLevel) :
    (p.value == "private") = (p == PrivacyLevel.PRIVATE) := by
  cases p <;> decide

/-- C1: the read-permission decision of the single-image get operation equals
the documented `canRead` formula. -/
theorem c1_get_image_read_decision (u : UserRow) (img : ImageRow) :
    get_image_read_allowed u img = true ↔
      (img.privacy = PrivacyLevel.PUBLIC ∨ u.role = UserRole.ADMIN ∨
        u.id = img.uploader_id) := by
  cases hr : u.role <;> cases hp : img.privacy <;>
    simp [get_image_read_allowed, get_image_denies, role_value_bne_admin,
      privacy_value_beq_private, hr, hp] <;>
    exact eq_comm

/-- C2: no boundary response of the enhanced server carries a `password_hash`
key: not the registration / current-user body, not the login body (top level or
nested user object), and not an image body. -/
theorem c2_password_hash_never_exposed (u : UserRow) (token : String)
    (img : ImageRow) (tags : List String) :
    "password_hash" ∉ ((UserResponse.ofRow u).toFields.map Prod.fst) ∧
    "password_hash" ∉ ((loginResponseFields token u).map Prod.fst) ∧
    "user.password_hash" ∉ ((loginResponseFields token u).map Prod.fst) ∧
    "password_hash" ∉ ((imageResponseFields img tags).map Prod.fst) := by
  refine ⟨?_, ?_, ?_, ?_⟩ <;>
    simp [UserResponse.toFields, loginResponseFields, imageResponseFields]

/-- C3: the working token service (`main_enhanced.py` / `main_simple.py`)
issues payloads whose user id and role are the arguments and whose expiry is
the issue time plus the fixed 24-hour TTL, as the claim states; but the cited
`create_access_token` of `main_auth_only.py` evaluates
`timezone(timedelta(hours=24))`, whose constructor rejects the non-strict
24-hour offset with `ValueError` on every call — before any addition to the
datetime — so in that variant no token with the claimed expiry is ever
issued. -/
theorem c3_token_ttl_and_auth_only_value_error :
    (∀ (user_id role : String) (now : Nat),
        (MainEnhanced.create_access_token user_id role now).user_id = user_id ∧
        (MainEnhanced.create_access_token user_id role now).role = role ∧
        (MainEnhanced.create_access_token user_id role now).exp
          = now + JWT_EXPIRATION_HOURS * 3600) ∧
    (∀ (user_data : AuthOnly.UserData) (now : Int),
        AuthOnly.create_access_token user_data now
          = Except.error AuthOnly.PyError.valueError) :=
  ⟨fun _ _ _ => ⟨rfl, rfl, rfl⟩, fun _ _ => by
    simp [AuthOnly.create_access_token, AuthOnly.timezoneCtor,
      AuthOnly.timedeltaHours, AuthOnly.JWT_EXPIRATION_HOURS]⟩

/-- C7: when thumbnail derivation fails, the store operation still returns the
(fileURL, thumbnailURL) pair and the object written under the thumbnail key is
the original un-resized image bytes. -/
theorem c7_thumbnail_fallback_stores_original
    (resize : List Nat → Except String (List Nat)) (s : StorageService.ObjectStore)
    (file_data : List Nat) (file_key thumbnail_key : String) (err : String)
    (hfail : resize file_data = Except.error err) :
    (StorageService.upload_local resize s file_data file_key thumbnail_key).2
        = ("/uploads/" ++ file_key, "/uploads/" ++ thumbnail_key) ∧
    StorageService.getObject
        (StorageService.upload_local resize s file_data file_key thumbnail_key).1
        thumbnail_key = some file_data := by
  refine ⟨rfl, ?_⟩
  simp [StorageService.upload_local, StorageService.create_thumbnail, hfail,
    StorageService.putObject, StorageService.getObject]

/-- Witness for C7: a concrete upload whose resize step fails. -/
theorem c7_witness :
    (fun _ : List Nat => (Except.error "thumbnail failed" : Except String (List Nat)))
        [1, 2, 3] = Except.error "thumbnail failed" ∧
    ((StorageService.upload_local (fun _ => Except.error "thumbnail failed")
          ⟨[]⟩ [1, 2, 3] "images/a.png" "thumbnails/b.jpg").2
        = ("/uploads/images/a.png", "/uploads/thumbnails/b.jpg") ∧
      StorageService.getObject
          (StorageService.upload_local (fun _ => Except.error "thumbnail failed")
            ⟨[]⟩ [1, 2, 3] "images/a.png" "thumbnails/b.jpg").1
          "thumbnails/b.jpg" = some [1, 2, 3]) :=
  ⟨rfl, c7_thumbnail_fallback_stores_original
    (fun _ => Except.error "thumbnail failed") ⟨[]⟩ [1, 2, 3]
    "images/a.png" "thumbnails/b.jpg" "thumbnail failed" rfl⟩

/-- C8 counterexample: on a corrupted stored digest (no bcrypt scheme marker)
`verify_password` surfaces passlib's `UnknownHashError` instead of returning
false; in particular its result is not `false` (nor any boolean). -/
theorem c8_counterexample_malformed_digest_raises :
    MainPy.verify_password (fun _ _ => false) "password123" "corrupted-digest"
        = Except.error Passlib.PasslibError.unknownHash ∧
    ∀ b : Bool, MainPy.verify_password (fun _ _ => false) "password123" "corrupted-digest"
        ≠ Except.ok b := by
  refine ⟨rfl, ?_⟩
  intro b h
  simp [MainPy.verify_password, Passlib.cryptContextVerify,
    Passlib.identifyDigest] at h

/-- C8 amended: `verify_password` raises `UnknownHashError` exactly when the
stored digest carries no recognised bcrypt scheme marker; only an identified
digest yields a boolean, decided by the external bcrypt comparison. -/
theorem c8_amended_malformed_digest_raises (bcryptCheck : String → String → Bool)
    (plain digest : String) :
    (MainPy.verify_password bcryptCheck plain digest
        = Except.error Passlib.PasslibError.unknownHash
      ↔ Passlib.identifyDigest digest = false) ∧
    (Passlib.identifyDigest digest = true →
      MainPy.verify_password bcryptCheck plain digest
        = Except.ok (bcryptCheck plain digest)) := by
  cases hid : Passlib.identifyDigest digest <;>
    simp [MainPy.verify_password, Passlib.cryptContextVerify, hid]

/-- Witness for C8's amended theorem: a well-formed bcrypt digest yields the
boolean decided by the comparison function. -/
theorem c8_amended_witness :
    Passlib.identifyDigest "$2b$12$abcdefgh" = true ∧
    MainPy.verify_password (fun _ _ => true) "password123" "$2b$12$abcdefgh"
        = Except.ok true :=
  ⟨rfl, (c8_amended_malformed_digest_raises (fun _ _ => true) "password123"
    "$2b$12$abcdefgh").2 rfl⟩

/-- C9: in the enhanced and simple server variants the token parameter of
`get_current_user` is bound to `Depends(lambda: None)`, so for every request,
every token verifier and every credential store — including a request that
carries a validly issued, unexpired bearer token — `get_current_user` yields
None and the guarded endpoint rejects the request as unauthenticated. -/
theorem c9_get_current_user_always_none
    (verify : String → Option TokenPayload) (store : List UserRow)
    (req : MainEnhanced.Request) :
    MainEnhanced.get_current_user verify store req = none ∧
    MainEnhanced.auth_me verify store req
      = Except.error (HttpError.unauthorized "Not authenticated") :=
  ⟨rfl, rfl⟩

/-- C4 counterexample: registering with a fresh email but a username that an
existing user already holds does not produce a 4xx duplicate-identity
rejection — it surfaces as the generic 500 "Database operation failed". -/
theorem c4_counterexample_duplicate_username_is_500 :
    ([existingUser].any (fun u => u.email == dupUsernameReq.email)) = false ∧
    ([existingUser].any (fun u => u.username == dupUsernameReq.username)) = true ∧
    (MainEnhanced.register_user [existingUser] dupUsernameReq "user-2" 50).1
        = Except.error (HttpError.internalError "Database operation failed") ∧
    HttpError.is4xx (HttpError.internalError "Database operation failed") = false :=
  ⟨rfl, rfl, rfl, rfl⟩

/-- C4 amended: a duplicate email is rejected with a 400 pre-check; a
duplicate username with a fresh email passes the application pre-check and
fails only at the database uniqueness constraint, surfacing as a 500 — in both
failure cases no new record is persisted; registration succeeds exactly when
both email and username are fresh. -/
theorem c4_amended_registration_rejections (store : List UserRow)
    (req : MainEnhanced.UserCreate) (fresh_id : String) (now : Nat) :
    (store.any (fun u => u.email == req.email) = true →
      MainEnhanced.register_user store req fresh_id now
        = (Except.error (HttpError.badRequest "User already exists"), store)) ∧
    (store.any (fun u => u.email == req.email) = false →
      store.any (fun u => u.username == req.username) = true →
      MainEnhanced.register_user store req fresh_id now
        = (Except.error (HttpError.internalError "Database operation failed"),
            store)) ∧
    (store.any (fun u => u.email == req.email) = false →
      store.any (fun u => u.username == req.username) = false →
      MainEnhanced.register_user store req fresh_id now
        = (Except.ok (MainEnhanced.create_user_row req fresh_id now),
            store ++ [MainEnhanced.create_user_row req fresh_id now])) := by
  refine ⟨fun h1 => ?_, fun h1 h2 => ?_, fun h1 h2 => ?_⟩
  · simp [MainEnhanced.register_user, h1]
  · have hc : store.any (fun v =>
        v.email == (MainEnhanced.create_user_row req fresh_id now).email
          || v.username == (MainEnhanced.create_user_row req fresh_id now).username)
        = true := by
      rcases List.any_eq_true.mp h2 with ⟨u, hu, hpu⟩
      exact List.any_eq_true.mpr ⟨u, hu, by
        simp [MainEnhanced.create_user_row]
        simp at hpu
        exact Or.inr hpu⟩
    simp [MainEnhanced.register_user, h1, insertUser, hc]
  · have hc : store.any (fun v =>
        v.email == (MainEnhanced.create_user_row req fresh_id now).email
          || v.username == (MainEnhanced.create_user_row req fresh_id now).username)
        = false := by
      rw [List.any_eq_false] at h1 h2 ⊢
      intro v hv
      simp only [MainEnhanced.create_user_row, Bool.or_eq_true, not_or]
      refine ⟨?_, ?_⟩
      · have := h1 v hv
        simpa using this
      · have := h2 v hv
        simpa using this
    simp [MainEnhanced.register_user, h1, insertUser, hc]

/-- Witness for C4's amended theorem: on an empty store a registration with
both identifiers fresh succeeds and persists exactly the new row. -/
theorem c4_amended_witness :
    (([] : List UserRow).any (fun u => u.email == dupUsernameReq.email) = false) ∧
    (([] : List UserRow).any (fun u => u.username == dupUsernameReq.username)
        = false) ∧
    MainEnhanced.register_user [] dupUsernameReq "user-2" 50
        = (Except.ok (MainEnhanced.create_user_row dupUsernameReq "user-2" 50),
            [MainEnhanced.create_user_row dupUsernameReq "user-2" 50]) :=
  ⟨rfl, rfl,
    (c4_amended_registration_rejections [] dupUsernameReq "user-2" 50).2.2 rfl rfl⟩

/-- C5 counterexample: a deactivated user presenting a validly decoded token is
authenticated by `get_current_user`, not rejected: the use-time lookup ignores
`is_active`. -/
theorem c5_counterexample_deactivated_user_accepted :
    deactivatedUser.is_active = false ∧
    MainPy.get_current_user [deactivatedUser]
        (MainPy.TokenDecode.valid (some "user-9")) = Except.ok deactivatedUser :=
  ⟨rfl, rfl⟩

/-- C5 amended: the use-time re-check of the credential store rejects a token
whose subject row no longer exists (deleted user), but any existing row —
deactivated or not — is returned and the request proceeds authenticated. -/
theorem c5_amended_use_time_recheck (store : List UserRow) (user_id : String) :
    (store.find? (fun u => u.id == user_id) = none →
      MainPy.get_current_user store (MainPy.TokenDecode.valid (some user_id))
        = Except.error (HttpError.unauthorized "User not found")) ∧
    (∀ u : UserRow, store.find? (fun v => v.id == user_id) = some u →
      MainPy.get_current_user store (MainPy.TokenDecode.valid (some user_id))
        = Except.ok u) := by
  refine ⟨fun h => ?_, fun u h => ?_⟩ <;> simp [MainPy.get_current_user, h]

/-- Witness for C5's amended theorem: a token whose subject was deleted from
the store is rejected with a 401. -/
theorem c5_amended_witness :
    ([deactivatedUser].find? (fun u => u.id == "user-404") = none) ∧
    MainPy.get_current_user [deactivatedUser]
        (MainPy.TokenDecode.valid (some "user-404"))
      = Except.error (HttpError.unauthorized "User not found") :=
  ⟨rfl, (c5_amended_use_time_recheck [deactivatedUser] "user-404").1 rfl⟩

/-- C6 counterexample: `main.py`'s list endpoint returns the stored (ascending)
order — page 1 with limit 20 yields img-001, img-002, img-003 in that order,
which is not ordered by upload time descending. -/
theorem c6_counterexample_main_py_unordered :
    ((MainPy.get_images 1 20 none).1.map MainPy.MockImage.id
        = ["img-001", "img-002", "img-003"]) ∧
    (MainPy.get_images 1 20 none).2 = 3 ∧
    ¬ List.Pairwise MainPy.mockDesc (MainPy.get_images 1 20 none).1 := by
  refine ⟨rfl, rfl, ?_⟩
  decide

/-- C6 amended: for the enhanced variant's list endpoint the claim holds as
stated — `total` counts all visible images regardless of page, the page body
has `min limit (total - (page-1)*limit)` items, those items are ordered by
upload time descending, and each of them is visible; the `main.py` variant
instead returns its slice in stored order, without sorting. -/
theorem c6_amended_pagination (store : List ImageRow) (current_user : UserRow)
    (page limit : Nat) (user_id : Option String) (privacy : Option PrivacyLevel)
    (_hpage : 1 ≤ page) (_hlim1 : 1 ≤ limit) (_hlim2 : limit ≤ 100) :
    (MainEnhanced.get_images store current_user page limit user_id privacy).total
        = (store.filter (MainEnhanced.visibleTo current_user user_id privacy)).length ∧
    (MainEnhanced.get_images store current_user page limit user_id privacy).images.length
        = min limit
            ((store.filter (MainEnhanced.visibleTo current_user user_id privacy)).length
              - (page - 1) * limit) ∧
    List.Pairwise MainEnhanced.uploadedDesc
        (MainEnhanced.get_images store current_user page limit user_id privacy).images ∧
    (∀ img ∈ (MainEnhanced.get_images store current_user page limit user_id privacy).images,
        MainEnhanced.visibleTo current_user user_id privacy img = true) := by
  refine ⟨rfl, ?_, ?_, ?_⟩
  · have hlen : (List.insertionSort MainEnhanced.uploadedDesc
        (store.filter (MainEnhanced.visibleTo current_user user_id privacy))).length
        = (store.filter (MainEnhanced.visibleTo current_user user_id privacy)).length :=
      (List.perm_insertionSort _ _).length_eq
    simp [MainEnhanced.get_images, List.length_take, List.length_drop, hlen]
  · have hs : List.Pairwise MainEnhanced.uploadedDesc
        (List.insertionSort MainEnhanced.uploadedDesc
          (store.filter (MainEnhanced.visibleTo current_user user_id privacy))) :=
      List.sorted_insertionSort MainEnhanced.uploadedDesc _
    exact hs.sublist ((List.take_sublist _ _).trans (List.drop_sublist _ _))
  · intro img hmem
    have h1 : img ∈ List.insertionSort MainEnhanced.uploadedDesc
        (store.filter (MainEnhanced.visibleTo current_user user_id privacy)) :=
      List.drop_subset _ _ (List.take_subset _ _ hmem)
    have h2 : img ∈ store.filter (MainEnhanced.visibleTo current_user user_id privacy) :=
      (List.perm_insertionSort _ _).subset h1
    exact List.of_mem_filter h2

/-- Witness for C6's amended theorem: the spec's determinism example on a
25-image store with limit 20 — page 1 carries 20 items, page 2 the remaining
5, and `total = 25` on both pages. -/
theorem c6_amended_witness :
    ((1 : Nat) ≤ 1 ∧ (1 : Nat) ≤ 20 ∧ (20 : Nat) ≤ 100) ∧
    ((MainEnhanced.get_images demoStore adminUser 1 20 none none).total
        = (demoStore.filter (MainEnhanced.visibleTo adminUser none none)).length ∧
      (MainEnhanced.get_images demoStore adminUser 1 20 none none).images.length
        = min 20
            ((demoStore.filter (MainEnhanced.visibleTo adminUser none none)).length
              - (1 - 1) * 20) ∧
      List.Pairwise MainEnhanced.uploadedDesc
        (MainEnhanced.get_images demoStore adminUser 1 20 none none).images ∧
      (∀ img ∈ (MainEnhanced.get_images demoStore adminUser 1 20 none none).images,
        MainEnhanced.visibleTo adminUser none none img = true)) ∧
    ((MainEnhanced.get_images demoStore adminUser 1 20 none none).images.length = 20 ∧
      (MainEnhanced.get_images demoStore adminUser 2 20 none none).images.length = 5 ∧
      (MainEnhanced.get_images demoStore adminUser 1 20 none none).total = 25 ∧
      (MainEnhanced.get_images demoStore adminUser 2 20 none none).total = 25) :=
  ⟨⟨by decide, by decide, by decide⟩,
    c6_amended_pagination demoStore adminUser 1 20 none none
      (by decide) (by decide) (by decide),
    by decide, by decide, by decide, by decide⟩

/-- C10: when the email field is omitted, `main.py`'s registration never takes
the duplicate-email pre-check rejection, and a successfully created user gets
the defaulted email `{username}@example.com` and — when the name was also
omitted — the username as name. -/
theorem c10_register_defaults_and_skipped_email_check (store : List UserRow)
    (req : MainPy.UserCreateOpt) (fresh_id : String) (now : Nat)
    (hemail : req.email = none) :
    ((MainPy.register_user store req fresh_id now).1
        ≠ Except.error (HttpError.badRequest "Email already registered")) ∧
    (∀ u : UserRow,
      (MainPy.register_user store req fresh_id now).1 = Except.ok u →
        u.email = req.username ++ "@example.com" ∧
        (req.name = none → u.name = req.username)) := by
  have hred : MainPy.register_user store req fresh_id now =
      (if store.any (fun u => u.username == req.username) then
        (Except.error (HttpError.badRequest "Username already taken"), store)
      else
        match insertUser store (MainPy.insert_row req fresh_id now) with
        | .error _ => (Except.error (HttpError.internalError "IntegrityError"), store)
        | .ok store' => (Except.ok (MainPy.insert_row req fresh_id now), store')) := by
    simp [MainPy.register_user, hemail, MainPy.truthy]
  rw [hred]
  cases hdup : store.any (fun v => v.username == req.username) with
  | true =>
    refine ⟨fun hcontra => ?_, fun u hu => ?_⟩
    · simp at hcontra
    · simp at hu
  | false =>
    cases hins : insertUser store (MainPy.insert_row req fresh_id now) with
    | error e =>
      refine ⟨fun hcontra => ?_, fun u hu => ?_⟩
      · simp [hins] at hcontra
      · simp [hins] at hu
    | ok store' =>
      refine ⟨fun hcontra => ?_, fun u hu => ?_⟩
      · simp [hins] at hcontra
      · simp [hins] at hu
        subst hu
        exact ⟨by simp [MainPy.insert_row, MainPy.pyOr, hemail],
          fun hname => by simp [MainPy.insert_row, MainPy.pyOr, hname]⟩

/-- Witness for C10: a request omitting both optional fields, registered
against a store holding one unrelated user. -/
theorem c10_witness :
    missingFieldsReq.email = none ∧
    (((MainPy.register_user [existingUser] missingFieldsReq "user-7" 60).1
        ≠ Except.error (HttpError.badRequest "Email already registered")) ∧
      (∀ u : UserRow,
        (MainPy.register_user [existingUser] missingFieldsReq "user-7" 60).1
            = Except.ok u →
          u.email = missingFieldsReq.username ++ "@example.com" ∧
          (missingFieldsReq.name = none → u.name = missingFieldsReq.username))) :=
  ⟨rfl, c10_register_defaults_and_skipped_email_check
    [existingUser] missingFieldsReq "user-7" 60 rfl⟩

end CloneGallery
